import Mathlib

/-!
Verification development for `src/parade/server/dash/chart/__init__.py`
(`CustomChart`, the base class for custom Dash charts).

The Python module is embedded shallowly:

* Python values flowing through the chart code are modelled by `PValue`
  (strings, ints, floats as rationals, booleans, `None`, lists, dicts,
  and the `go.layout.Title` wrapper produced in `create_layout`).
* Python dicts are modelled as insertion-ordered association lists with
  `PKey` keys; dict item assignment (`d[k] = v`) replaces an existing
  binding in place and otherwise appends, exactly like CPython dicts.
* Exceptions are modelled by `Except PyError`.
* One genuine aliasing fact of the source is modelled explicitly: the
  layout built by `create_layout` stores the very list object
  `self.annotations` under its `"annotations"` key, so an item
  assignment through that entry writes back into the instance.  Layout
  values are therefore `LValue`: either an ordinary (immutable in the
  model) `PValue`, or `annRef`, the reference to the instance's
  `annotations` attribute.  The annotation list content is threaded as
  explicit state wherever a write through the reference is possible.
-/

namespace ParadeChart

/-- Keys usable in Python subscript positions in this module: strings and ints. -/
inductive PKey where
  | str (s : String)
  | int (n : Int)
deriving DecidableEq, Repr

/-- Shallow model of the Python values handled by the chart module. Floats are
modelled as rationals (the module only ever manipulates them as opaque data;
no float arithmetic occurs in the source). `title` models the
`go.layout.Title(text=...)` wrapper object. -/
inductive PValue where
  | str (s : String)
  | int (n : Int)
  | float (q : Rat)
  | bool (b : Bool)
  | pynone
  | list (xs : List PValue)
  | dict (entries : List (PKey × PValue))
  | title (text : String)

/-- Python type name of a value, as a schema validator would classify it. -/
def pyTypeName : PValue → String
  | .str _ => "string"
  | .int _ => "integer"
  | .float _ => "float"
  | .bool _ => "boolean"
  | .pynone => "nonetype"
  | .list _ => "list"
  | .dict _ => "dict"
  | .title _ => "title"

/-- Whether a value is a Python dict. -/
def PValue.isDict : PValue → Bool
  | .dict _ => true
  | _ => false

/-- First binding of key `k` in an association list (Python dicts never hold
duplicate keys, so first-match lookup is exact dict lookup). -/
def assocFind {α : Type} : List (PKey × α) → PKey → Option α
  | [], _ => Option.none
  | kv :: rest, k => if kv.1 = k then some kv.2 else assocFind rest k

/-- Python dict item assignment `d[k] = v`: replace the existing binding in
place, keeping insertion order, else append a new binding. -/
def assocSet {α : Type} : List (PKey × α) → PKey → α → List (PKey × α)
  | [], k, v => [(k, v)]
  | kv :: rest, k, v => if kv.1 = k then (k, v) :: rest else kv :: assocSet rest k v

/-- Python `k in d` on a dict value (the source only applies `in` to
`self.axis_range`, which is always a dict). -/
def dictMem (v : PValue) (k : String) : Bool :=
  match v with
  | .dict es => (assocFind es (.str k)).isSome
  | _ => false

/-- Python `d[k]` on a dict value, for a key known to be present; absent keys
default to `pynone` (never exercised by the source, which guards with `in`). -/
def dictGet (v : PValue) (k : String) : PValue :=
  match v with
  | .dict es => (assocFind es (.str k)).getD .pynone
  | _ => .pynone

/-- Exceptions raised by the chart module: `RuntimeError` (carrying the
structured validation errors it formats into its message), the
`NotImplementedError` of the abstract `create_traces`, `KeyError` from a dict
subscript on a missing key, `TypeError` from subscript assignment on a
non-subscriptable value, and `IndexError` from a list index out of range. -/
inductive PyError where
  | runtimeError (errors : List String)
  | notImplementedError
  | keyError (key : String)
  | typeError
  | indexError
deriving DecidableEq, Repr

/-- One item rule of the schema: the list of admissible Python type names. -/
structure ItemRule where
  type : List String
deriving DecidableEq, Repr

/-- One field of the validation schema, mirroring the dict literals of
`CustomChart._axis_range_schema`. -/
structure FieldSchema where
  items : List ItemRule
  required : Bool
  type : String
deriving DecidableEq, Repr

/-- `CustomChart._axis_range_schema` (source lines 17-28): `x` bounds may be
integer, float or string; `y` bounds may be integer or float only. -/
def _axis_range_schema : List (String × FieldSchema) :=
  [("x", { items := [⟨["integer", "float", "string"]⟩, ⟨["integer", "float", "string"]⟩],
           required := false, type := "list" }),
   ("y", { items := [⟨["integer", "float"]⟩, ⟨["integer", "float"]⟩],
           required := false, type := "list" })]

/-- Lookup of a field schema by field name. -/
def schemaFind : List (String × FieldSchema) → String → Option FieldSchema
  | [], _ => Option.none
  | kv :: rest, k => if kv.1 = k then some kv.2 else schemaFind rest k

/-- Modelled from the spec: validation of one document field against its
`FieldSchema` (arity and per-item admissible types), part of the
`validate(value, schema)` collaborator from `parade.server.dash.utils`, which
is imported by the chart module but absent from `src/`. -/
def validateField (fs : FieldSchema) (v : PValue) : List String :=
  match v with
  | .list xs =>
      if xs.length = fs.items.length then
        (fs.items.zip xs).foldr
          (fun p acc =>
            (if p.1.type.contains (pyTypeName p.2) then [] else ["value has unexpected type"]) ++ acc)
          []
      else ["wrong number of items"]
  | _ => ["value is not a list"]

/-- Modelled from the spec: the errors contributed by a single key/value entry
of the validated document — the key must be declared in the schema and the
value must satisfy the key's field schema. -/
def validateEntry (schema : List (String × FieldSchema)) (kv : PKey × PValue) : List String :=
  match kv.1 with
  | .str name =>
      (match schemaFind schema name with
       | some fs => validateField fs kv.2
       | Option.none => ["unknown field"])
  | .int _ => ["unknown field"]

/-- Modelled from the spec: the `validate(value, schema)` collaborator from
`parade.server.dash.utils` (imported by the chart module, not in `src/`).
Per the spec it returns a possibly-empty collection of error descriptions:
the document must be a mapping, every key must be declared in the schema,
and each present value must satisfy its field schema (exact arity, admissible
item types); fields are optional when `required` is false. -/
def validate (document : PValue) (schema : List (String × FieldSchema)) : List String :=
  match document with
  | .dict entries => entries.foldr (fun kv acc => validateEntry schema kv ++ acc) []
  | _ => ["document is not a mapping"]

/-- A layout override triple `[ParentKey, SubKey, Value]` as stored in
`self.layout_overrides`. -/
abbrev LayoutOverride := String × Option PKey × PValue

/-- Instance state of a `CustomChart`: `title`, the `labels` dict (recorded by
its two fixed entries `labels["x"]` and `labels["y"]`), `layout_overrides`,
the `_axis_range` backing field of the `axis_range` property, and the content
of the `annotations` list attribute. -/
structure CustomChart where
  title : String
  xlabel : String
  ylabel : String
  layout_overrides : List LayoutOverride
  _axis_range : PValue
  annotations : List PValue

/-- Body of `initialize_mutables` (source lines 63-65): `pass` — it mutates
nothing. (Name shortened from the source's `initialize_mutables`.) -/
def CustomChart.init_mutables (c : CustomChart) : CustomChart := c

/-- `CustomChart.__init__` (source lines 48-61): stores the parameters, then
calls the (no-op) mutable-initialization hook. `annotations` and
`_axis_range` are the class-level defaults `[]` and `{}`; the class-attribute
sharing of `annotations` between instances is modelled separately below. -/
def CustomChart.init (title xlabel ylabel : String)
    (layout_overrides : List LayoutOverride) : CustomChart :=
  CustomChart.init_mutables
    { title := title, xlabel := xlabel, ylabel := ylabel,
      layout_overrides := layout_overrides,
      _axis_range := .dict [], annotations := [] }

/-- The `axis_range` property getter (source lines 30-38). -/
def axis_range (c : CustomChart) : PValue := c._axis_range

/-- The `axis_range` property setter (source lines 40-46): validate against
`_axis_range_schema`; on any error raise `RuntimeError` carrying the errors
and leave the instance untouched, otherwise assign the new value. -/
def set_axis_range (c : CustomChart) (v : PValue) : Except PyError Unit × CustomChart :=
  let errors := validate v _axis_range_schema
  if errors.isEmpty then (.ok (), { c with _axis_range := v })
  else (.error (.runtimeError errors), c)

/-- The abstract `create_traces` of the base class (source lines 83-96):
unconditionally raises `NotImplementedError`. -/
def create_traces (_df_raw _kwargs : PValue) : Except PyError (List PValue) :=
  .error .notImplementedError

/-- A value stored in the layout dict: either an ordinary value, or the live
reference to the instance's `annotations` list that `create_layout` stores
under the `"annotations"` key (`'annotations': self.annotations`). -/
inductive LValue where
  | pv (v : PValue)
  | annRef

/-- The layout dict built and patched by the chart module. -/
abbrev Layout := List (PKey × LValue)

/-- The base layout dict literal of `create_layout` (source lines 105-119),
before the axis-range loop. The `"annotations"` entry is the reference to
`self.annotations` itself, not a copy. -/
def baseLayout (c : CustomChart) : Layout :=
  [(.str "annotations", .annRef),
   (.str "title", .pv (.title c.title)),
   (.str "xaxis", .pv (.dict [(.str "automargin", .bool true),
                              (.str "title", .str c.xlabel)])),
   (.str "yaxis", .pv (.dict [(.str "automargin", .bool true),
                              (.str "title", .str c.ylabel),
                              (.str "zeroline", .bool true)])),
   (.str "legend", .pv (.dict [(.str "orientation", .str "h"),
                               (.str "y", .float (-(1 : Rat)/4))])),
   (.str "hovermode", .pv (.str "closest"))]

/-- The nested item assignment `layout[axis_name][key] = value` performed by
the axis loop of `create_layout`; `layout[axis_name]` is always one of the
freshly built axis dicts there. -/
def setAxisEntry (layout : Layout) (axisName key : String) (v : PValue) : Layout :=
  layout.map fun kv =>
    if kv.1 = PKey.str axisName then
      (kv.1, match kv.2 with
             | .pv (.dict es) => .pv (.dict (assocSet es (.str key) v))
             | other => other)
    else kv

/-- One iteration of the axis loop of `create_layout` (source lines 122-127):
if the axis is in `self.axis_range`, set the axis dict's `range`, else set its
`autorange` to true. -/
def applyAxisRange (c : CustomChart) (layout : Layout) (axis : String) : Layout :=
  let axisName := axis ++ "axis"
  if dictMem c._axis_range axis then
    setAxisEntry layout axisName "range" (dictGet c._axis_range axis)
  else
    setAxisEntry layout axisName "autorange" (.bool true)

/-- `create_layout` (source lines 98-129): the base layout literal, then the
loop `for axis in ['x', 'y']` applying the optional axis ranges. -/
def create_layout (c : CustomChart) : Layout :=
  ["x", "y"].foldl (applyAxisRange c) (baseLayout c)

/-- Python list item assignment `xs[n] = v`, including negative indices;
out-of-range indices raise `IndexError`. -/
def listSetItem (xs : List PValue) (n : Int) (v : PValue) :
    Except PyError (List PValue) :=
  if 0 ≤ n ∧ n < (xs.length : Int) then .ok (xs.set n.toNat v)
  else if -(xs.length : Int) ≤ n ∧ n < 0 then .ok (xs.set (xs.length + n).toNat v)
  else .error .indexError

/-- The subscript assignment `layout[parent_key][sub_key] = value` of
`apply_custom_layout`, on the value found at `parent_key`. A dict gains or
replaces the binding; a list (or the annotations reference, which denotes the
instance's list) gets an item assignment under an int key and a `TypeError`
under a string key; any other value is not subscript-assignable. The
annotation-list content `ann` is threaded as state because writing through
`annRef` mutates it. -/
def lvalSetSub (lv : LValue) (sk : PKey) (x : PValue) (ann : List PValue) :
    Except PyError LValue × List PValue :=
  match lv, sk with
  | .pv (.dict es), k => (.ok (.pv (.dict (assocSet es k x))), ann)
  | .pv (.list xs), .int n =>
      (match listSetItem xs n x with
       | .ok xs2 => (.ok (.pv (.list xs2)), ann)
       | .error e => (.error e, ann))
  | .pv (.list _), .str _ => (.error .typeError, ann)
  | .annRef, .int n =>
      (match listSetItem ann n x with
       | .ok ann2 => (.ok .annRef, ann2)
       | .error e => (.error e, ann))
  | .annRef, .str _ => (.error .typeError, ann)
  | .pv _, _ => (.error .typeError, ann)

/-- `apply_custom_layout` (source lines 131-147): apply each override triple
in order. With a sub key, `layout[parent_key][sub_key] = value` — the parent
key must already be present (else `KeyError`); without one, replace
`layout[parent_key]` wholesale. The annotation-list content is threaded
because a sub-key write through the layout's `"annotations"` entry mutates
the instance's list. Mutations performed before an error persist, as in
Python. -/
def apply_custom_layout :
    List LayoutOverride → Layout → List PValue → Except PyError Layout × List PValue
  | [], layout, ann => (.ok layout, ann)
  | (parent_key, sub_key, value) :: rest, layout, ann =>
    match sub_key with
    | some sk =>
        (match assocFind layout (.str parent_key) with
         | Option.none => (.error (.keyError parent_key), ann)
         | some lv =>
             match lvalSetSub lv sk value ann with
             | (.ok lv2, ann2) =>
                 apply_custom_layout rest (assocSet layout (.str parent_key) lv2) ann2
             | (.error e, ann2) => (.error e, ann2))
    | Option.none =>
        apply_custom_layout rest (assocSet layout (.str parent_key) (.pv value)) ann

/-- The library-native layout object `go.Layout(...)` built in
`create_figure`, modelled as an opaque wrapper of the layout dict. -/
structure GoLayout where
  fields : Layout

/-- The figure dictionary returned by `create_figure`: keys `data` and
`layout`. -/
structure Figure where
  data : List PValue
  layout : GoLayout

/-- A subclass's `create_traces` override (dynamic dispatch point of
`create_figure`): given the instance and the `df_raw` / keyword arguments, it
returns traces or raises, and may mutate the instance at its own discretion. -/
abbrev TracesHook := CustomChart → PValue → PValue → Except PyError (List PValue) × CustomChart

/-- `create_figure` (source lines 67-81), parameterized by the subclass's
`create_traces` implementation. The dict literal evaluates `data` first
(`create_traces`) and then `layout`
(`go.Layout(self.apply_custom_layout(self.create_layout()))`); an exception
in either aborts the call, and annotation-list mutations performed by the
layout patching persist on the instance. -/
def create_figure (tr : TracesHook) (c : CustomChart) (df_raw kwargs_data : PValue) :
    Except PyError Figure × CustomChart :=
  match tr c df_raw kwargs_data with
  | (.error e, c1) => (.error e, c1)
  | (.ok traces, c1) =>
      match apply_custom_layout c1.layout_overrides (create_layout c1) c1.annotations with
      | (.ok lay, ann2) => (.ok ⟨traces, ⟨lay⟩⟩, { c1 with annotations := ann2 })
      | (.error e, ann2) => (.error e, { c1 with annotations := ann2 })

/-- Content of the sub-entry `layout[pk][sk]` of a layout dict, when
`layout[pk]` is an ordinary dict. -/
def layoutSub (layout : Layout) (pk sk : String) : Option PValue :=
  match assocFind layout (.str pk) with
  | some (.pv (.dict es)) => assocFind es (.str sk)
  | _ => Option.none

/-!
Python attribute semantics for the class-level `annotations = []` default
(source lines 9-14). `CustomChart.annotations` is a single class attribute;
an instance that never assigns `self.annotations` reads — and mutates through
`self.annotations.append(...)` — that shared class-level list. `__init__`
only calls `initialize_mutables`, whose body is `pass`, so no instance
attribute is ever created by construction. The tiny model below makes the
class attribute and the per-instance attribute dictionaries explicit.
-/

/-- One constructed `CustomChart` instance as Python sees it: the stored
constructor arguments plus the instance's own `__dict__` entry for
`annotations` (`Option.none` when the instance never assigned the attribute
and reads fall through to the class attribute). -/
structure PyInstance where
  title : String
  xlabel : String
  ylabel : String
  layout_overrides : List LayoutOverride
  annAttr : Option (List PValue)

/-- The world of constructed instances together with the single class-level
`CustomChart.annotations` list. -/
structure PyWorld where
  classAnn : List PValue
  insts : List PyInstance

/-- The fresh interpreter state: the class attribute is the empty list and no
instance exists yet. -/
def freshWorld : PyWorld := { classAnn := [], insts := [] }

/-- `initialize_mutables` as called on instance `i`: its body is `pass`, so
the world is unchanged. (Name shortened from the source's
`initialize_mutables`.) -/
def pyInitMutables (w : PyWorld) (_i : Nat) : PyWorld := w

/-- Constructing `CustomChart(title=t, xlabel=x, ylabel=y, layout_overrides=o)`:
the new instance stores the arguments, gets no instance-level `annotations`
entry, and `initialize_mutables` (a no-op) runs on it. -/
def constructInstance (w : PyWorld) (t x y : String) (o : List LayoutOverride) : PyWorld :=
  pyInitMutables
    { w with insts := w.insts ++ [{ title := t, xlabel := x, ylabel := y,
                                    layout_overrides := o, annAttr := Option.none }] }
    w.insts.length

/-- The default instance value used for out-of-range indices (never reached in
the concrete statements below). -/
def defaultInstance : PyInstance :=
  { title := "", xlabel := "", ylabel := "", layout_overrides := [], annAttr := Option.none }

/-- Python attribute read `inst_i.annotations`: the instance `__dict__` entry
if present, else the class attribute. -/
def observedAnn (w : PyWorld) (i : Nat) : List PValue :=
  match (w.insts.getD i defaultInstance).annAttr with
  | some l => l
  | Option.none => w.classAnn

/-- Python `inst_i.annotations.append(x)`: look the attribute up (class
attribute when the instance has no `__dict__` entry) and mutate that very
list object in place. -/
def appendAnn (w : PyWorld) (i : Nat) (x : PValue) : PyWorld :=
  match (w.insts.getD i defaultInstance).annAttr with
  | some l =>
      { w with insts := w.insts.set i { w.insts.getD i defaultInstance with annAttr := some (l ++ [x]) } }
  | Option.none => { w with classAnn := w.classAnn ++ [x] }

/-!
Spec-side validity predicates for `axis_range` inputs. These two definitions
deliberately follow the words of the specification, not the source, so that
the source's schema can be compared against them.
-/

/-- Per the spec's words: a bound is "numeric or string typed". -/
def boundNumOrStr (v : PValue) : Bool :=
  ["integer", "float", "string"].contains (pyTypeName v)

/-- Per the source's schema for `y`: a bound that is numeric only. -/
def boundNum (v : PValue) : Bool :=
  ["integer", "float"].contains (pyTypeName v)

/-- A pair of bound values satisfying a per-bound test. -/
def twoBounds (ok : PValue → Bool) : PValue → Bool
  | .list [a, b] => ok a && ok b
  | _ => false

/-- Validity of a single `axis_range` entry per the SPEC's words: the key is
`x` or `y` and the value is exactly two numeric-or-string bounds (for both
axes alike). -/
def entryValidPerSpec (kv : PKey × PValue) : Bool :=
  if kv.1 = PKey.str "x" then twoBounds boundNumOrStr kv.2
  else if kv.1 = PKey.str "y" then twoBounds boundNumOrStr kv.2
  else false

/-- Validity of an `axis_range` value per the SPEC's words: a mapping with 0,
1 or 2 of the keys `x` and `y`, each present key mapping to exactly two
bounds, each bound numeric or string typed. -/
def axisRangeValidPerSpec (v : PValue) : Bool :=
  match v with
  | .dict es => es.all entryValidPerSpec
  | _ => false

/-- Validity of a single `axis_range` entry per the CODE's schema: as in the
spec for `x`, but the two `y` bounds must be numeric (integer or float). -/
def entryValidPerCode (kv : PKey × PValue) : Bool :=
  if kv.1 = PKey.str "x" then twoBounds boundNumOrStr kv.2
  else if kv.1 = PKey.str "y" then twoBounds boundNum kv.2
  else false

/-- Validity of an `axis_range` value per the CODE's schema
(`_axis_range_schema`): like `axisRangeValidPerSpec`, except that the two `y`
bounds must be numeric — the schema does not admit strings on `y`. -/
def axisRangeValidPerCode (v : PValue) : Bool :=
  match v with
  | .dict es => es.all entryValidPerCode
  | _ => false

/-!
Shared concrete instances and inputs used by the claim theorems below.
-/

/-- A chart constructed with plain arguments and no overrides. -/
def cBase : CustomChart := CustomChart.init "t" "xl" "yl" []

/-- A chart whose `axis_range` holds an `x` range but no `y` range. -/
def cX : CustomChart :=
  { cBase with _axis_range := .dict [(.str "x", .list [.int 1, .int 2])] }

/-- An `axis_range` input with string bounds on `y`. -/
def vYStr : PValue := .dict [(.str "y", .list [.str "a", .str "b"])]

/-- An `axis_range` input valid for the code's schema: numeric-or-string `x`
bounds, numeric `y` bounds. -/
def vGood : PValue :=
  .dict [(.str "x", .list [.int 1, .str "a"]), (.str "y", .list [.int 2, .float (5/2)])]

/-- An `axis_range` input with an undeclared key. -/
def vBad : PValue := .dict [(.str "z", .list [.int 1, .int 2])]

/-- A world in which two `CustomChart` instances were constructed with
identical arguments and nothing else has happened. -/
def twoWorld : PyWorld :=
  constructInstance (constructInstance freshWorld "t" "xl" "yl" []) "t" "xl" "yl" []

/-- A `create_traces` override returning no traces and leaving the instance
untouched. -/
def trId : TracesHook := fun c _ _ => (.ok [], c)

/-- A `create_traces` override returning a fixed three-point trace list and
leaving the instance untouched. -/
def threePts : List PValue := [.int 1, .int 2, .int 3]

/-- The hook producing `threePts`. -/
def trThree : TracesHook := fun c _ _ => (.ok threePts, c)

/-- A chart whose single override names a parent key absent from every layout
`create_layout` builds. -/
def cMissing : CustomChart :=
  { cBase with layout_overrides := [("zzz", some (.str "s"), .int 0)] }

/-- The single override `("legend", "y", -0.1)`. -/
def legendOv : List LayoutOverride := [("legend", some (.str "y"), .float (-(1 : Rat)/10))]

/-- The legend dict after the `("legend", "y", -0.1)` patch. -/
def legendPatched : List (PKey × PValue) :=
  [(.str "orientation", .str "h"), (.str "y", .float (-(1 : Rat)/10))]

/-- A chart whose overrides are exactly `legendOv`. -/
def cLeg : CustomChart := { cBase with layout_overrides := legendOv }

/-- A chart with one annotation and a single override that assigns through
the layout's `"annotations"` entry at index 0. -/
def cEvil : CustomChart :=
  { title := "t", xlabel := "x", ylabel := "y",
    layout_overrides := [("annotations", some (.int 0), .str "EVIL")],
    _axis_range := .dict [], annotations := [.str "orig"] }

/-!
Supporting lemmas about the modelled validator.
-/

theorem twoBounds_shape (ok : PValue → Bool) (v : PValue) (h : twoBounds ok v = true) :
    ∃ a b, v = .list [a, b] ∧ ok a = true ∧ ok b = true := by
  unfold twoBounds at h
  split at h
  · next a b => exact ⟨a, b, rfl, by simpa [Bool.and_eq_true] using h⟩
  · exact absurd h (by simp)

theorem validateEntry_nil_of_valid (kv : PKey × PValue)
    (h : entryValidPerCode kv = true) : validateEntry _axis_range_schema kv = [] := by
  obtain ⟨k, v⟩ := kv
  by_cases hx : k = PKey.str "x"
  · subst hx
    have h2 : twoBounds boundNumOrStr v = true := by
      simpa [entryValidPerCode] using h
    obtain ⟨a, b, rfl, ha, hb⟩ := twoBounds_shape _ _ h2
    simp [boundNumOrStr] at ha hb
    simp [validateEntry, schemaFind, validateField]
    constructor <;> tauto
  · by_cases hy : k = PKey.str "y"
    · subst hy
      have h2 : twoBounds boundNum v = true := by
        simpa [entryValidPerCode, hx] using h
      obtain ⟨a, b, rfl, ha, hb⟩ := twoBounds_shape _ _ h2
      simp [boundNum] at ha hb
      simp [validateEntry, schemaFind, validateField]
      constructor <;> tauto
    · simp [entryValidPerCode, hx, hy] at h

theorem foldr_validate_nil (es : List (PKey × PValue))
    (h : es.all entryValidPerCode = true) :
    es.foldr (fun kv acc => validateEntry _axis_range_schema kv ++ acc) [] = [] := by
  induction es with
  | nil => rfl
  | cons kv rest ih =>
      rw [List.all_cons, Bool.and_eq_true] at h
      simp [validateEntry_nil_of_valid kv h.1, ih h.2]

theorem validate_nil_of_validPerCode (v : PValue) (h : axisRangeValidPerCode v = true) :
    validate v _axis_range_schema = [] := by
  match v, h with
  | .dict es, h => exact foldr_validate_nil es (by simpa [axisRangeValidPerCode] using h)

/-!
Supporting lemmas about association-list update and the layout functions.
-/

theorem assocFind_assocSet_self {α : Type} (l : List (PKey × α)) (k : PKey) (v : α) :
    assocFind (assocSet l k v) k = some v := by
  induction l with
  | nil => simp [assocSet, assocFind]
  | cons kv rest ih =>
      by_cases h : kv.1 = k
      · simp [assocSet, assocFind, h]
      · simp [assocSet, assocFind, h, ih]

theorem assocFind_assocSet_ne {α : Type} (l : List (PKey × α)) (k k' : PKey) (v : α)
    (h : k' ≠ k) : assocFind (assocSet l k v) k' = assocFind l k' := by
  have h2 : ¬(k = k') := fun e => h e.symm
  induction l with
  | nil => simp [assocSet, assocFind, h2]
  | cons kv rest ih =>
      obtain ⟨k1, v1⟩ := kv
      by_cases hk : k1 = k
      · subst hk
        simp [assocSet, assocFind, h2]
      · simp [assocSet, assocFind, hk, ih]

theorem lvalSetSub_pv_ann (v : PValue) (sk : PKey) (x : PValue) (ann : List PValue) :
    (lvalSetSub (.pv v) sk x ann).2 = ann := by
  cases v with
  | list xs =>
      cases sk with
      | str s => rfl
      | int n =>
          simp only [lvalSetSub]
          cases listSetItem xs n x <;> rfl
  | str s => cases sk <;> rfl
  | int n => cases sk <;> rfl
  | float q => cases sk <;> rfl
  | bool b => cases sk <;> rfl
  | pynone => cases sk <;> rfl
  | dict es => cases sk <;> rfl
  | title t => cases sk <;> rfl

theorem lvalSetSub_pv_ok_shape (v : PValue) (sk : PKey) (x : PValue) (ann : List PValue)
    (lv2 : LValue) (ann2 : List PValue)
    (h : lvalSetSub (.pv v) sk x ann = (.ok lv2, ann2)) : ∃ v2, lv2 = .pv v2 := by
  cases v with
  | list xs =>
      cases sk with
      | str s => simp [lvalSetSub] at h
      | int n =>
          simp only [lvalSetSub] at h
          rcases hsi : listSetItem xs n x with e | xs2 <;> rw [hsi] at h <;> simp at h
          exact ⟨.list xs2, h.1.symm⟩
  | str s => cases sk <;> simp [lvalSetSub] at h
  | int n => cases sk <;> simp [lvalSetSub] at h
  | float q => cases sk <;> simp [lvalSetSub] at h
  | bool b => cases sk <;> simp [lvalSetSub] at h
  | pynone => cases sk <;> simp [lvalSetSub] at h
  | dict es =>
      cases sk <;> simp [lvalSetSub] at h <;> exact ⟨_, h.1.symm⟩
  | title t => cases sk <;> simp [lvalSetSub] at h

theorem annRef_only_assocSet (layout : Layout) (pk : PKey) (v2 : PValue)
    (hinv : ∀ k, assocFind layout k = some .annRef → k = .str "annotations") :
    ∀ k, assocFind (assocSet layout pk (.pv v2)) k = some .annRef →
      k = .str "annotations" := by
  intro k hk
  by_cases hkk : k = pk
  · subst hkk
    rw [assocFind_assocSet_self] at hk
    simp at hk
  · rw [assocFind_assocSet_ne _ _ _ _ hkk] at hk
    exact hinv k hk

theorem create_layout_annRef_only (c : CustomChart) :
    ∀ k, assocFind (create_layout c) k = some .annRef → k = .str "annotations" := by
  intro k h
  cases hx : dictMem c._axis_range "x" <;> cases hy : dictMem c._axis_range "y" <;>
    simp [create_layout, applyAxisRange, baseLayout, setAxisEntry, assocFind, hx, hy] at h <;>
    split_ifs at h <;> simp_all

theorem create_layout_find_legend (c : CustomChart) :
    assocFind (create_layout c) (.str "legend") =
      some (.pv (.dict [(.str "orientation", .str "h"),
                        (.str "y", .float (-(1 : Rat)/4))])) := by
  cases hx : dictMem c._axis_range "x" <;> cases hy : dictMem c._axis_range "y" <;>
    simp [create_layout, applyAxisRange, baseLayout, setAxisEntry, assocFind, hx, hy]

theorem apply_custom_layout_ann_invariant (ovs : List LayoutOverride) :
    ∀ (layout : Layout) (ann : List PValue),
    (∀ ov ∈ ovs, ov.1 = "annotations" → ov.2.1 = Option.none) →
    (∀ k, assocFind layout k = some .annRef → k = .str "annotations") →
    (apply_custom_layout ovs layout ann).2 = ann := by
  induction ovs with
  | nil => intro layout ann _ _; rfl
  | cons ov rest ih =>
      intro layout ann hno hinv
      obtain ⟨pk, sk, v⟩ := ov
      have hnoRest : ∀ o ∈ rest, o.1 = "annotations" → o.2.1 = Option.none :=
        fun o hm => hno o (List.mem_cons_of_mem _ hm)
      cases sk with
      | none =>
          have hinv2 := annRef_only_assocSet layout (.str pk) v hinv
          simpa [apply_custom_layout] using
            ih (assocSet layout (.str pk) (.pv v)) ann hnoRest hinv2
      | some s =>
          have hpk : pk ≠ "annotations" := by
            intro he
            have h2 := hno (pk, some s, v) (List.mem_cons_self _ _) he
            simp at h2
          cases hfind : assocFind layout (.str pk) with
          | none => simp [apply_custom_layout, hfind]
          | some lv =>
              cases lv with
              | annRef =>
                  have := hinv (.str pk) hfind
                  simp at this
                  exact absurd this hpk
              | pv pv0 =>
                  rcases hset : lvalSetSub (.pv pv0) s v ann with ⟨res, ann2⟩
                  have hann2 : ann2 = ann := by
                    have := lvalSetSub_pv_ann pv0 s v ann
                    rw [hset] at this
                    exact this
                  cases res with
                  | error e => simp [apply_custom_layout, hfind, hset, hann2]
                  | ok lv2 =>
                      obtain ⟨v2, rfl⟩ := lvalSetSub_pv_ok_shape pv0 s v ann lv2 ann2 hset
                      have hrec := ih (assocSet layout (.str pk) (.pv v2)) ann2 hnoRest
                        (annRef_only_assocSet layout (.str pk) v2 hinv)
                      rw [hann2] at hrec
                      simp [apply_custom_layout, hfind, hset, hrec, hann2]

/-!
Claim theorems.
-/

/-- C1 (code bug shown on the model): two `CustomChart` instances constructed
with identical arguments share the class-level `annotations` list, because
`annotations = []` is a class attribute and `initialize_mutables` is a no-op.
The second instance initially observes `[]`, but after appending one
annotation through the first instance it observes that annotation — contrary
to the claim (and to the stated purpose of `initialize_mutables`). -/
theorem c1_shared_annotations_bug :
    observedAnn twoWorld 1 = [] ∧
    observedAnn (appendAnn twoWorld 0 (.str "note")) 1 = [.str "note"] :=
  ⟨rfl, rfl⟩

/-- C2 counterexample: the input `{"y": ["a", "b"]}` is a valid `axis_range`
per the spec's words (two string bounds), yet the setter raises
`RuntimeError`, because `_axis_range_schema` admits only integer/float bounds
on `y`. -/
theorem c2_counterexample :
    axisRangeValidPerSpec vYStr = true ∧
    (set_axis_range cBase vYStr).1 =
      .error (.runtimeError ["value has unexpected type", "value has unexpected type"]) :=
  ⟨rfl, rfl⟩

/-- C2 (amended): for every `axis_range` value valid per the code's schema —
a mapping with 0, 1 or 2 of the keys `x` and `y`, the `x` bounds each numeric
or string, the `y` bounds each numeric — the setter succeeds and a subsequent
read of the getter returns the assigned value. -/
theorem c2_valid_axis_range_accepted (c : CustomChart) (v : PValue)
    (h : axisRangeValidPerCode v = true) :
    (set_axis_range c v).1 = .ok () ∧ axis_range (set_axis_range c v).2 = v := by
  have hv : validate v _axis_range_schema = [] := validate_nil_of_validPerCode v h
  constructor <;> simp [set_axis_range, axis_range, hv]

/-- Witness for C2 (amended) at the concrete input
`{"x": [1, "a"], "y": [2, 5/2]}`. -/
theorem c2_valid_axis_range_accepted_witness :
    axisRangeValidPerCode vGood = true ∧
    ((set_axis_range cBase vGood).1 = .ok () ∧
     axis_range (set_axis_range cBase vGood).2 = vGood) :=
  ⟨rfl, c2_valid_axis_range_accepted cBase vGood rfl⟩

/-- C3: whenever the validation collaborator reports a non-empty error
collection for an `axis_range` input, the setter raises `RuntimeError`
carrying those errors and the value read from the getter afterwards equals
the value read before the failed assignment. -/
theorem c3_invalid_axis_range_rejected (c : CustomChart) (v : PValue)
    (h : validate v _axis_range_schema ≠ []) :
    (set_axis_range c v).1 = .error (.runtimeError (validate v _axis_range_schema)) ∧
    axis_range (set_axis_range c v).2 = axis_range c := by
  have he : (validate v _axis_range_schema).isEmpty = false := by
    cases hv : validate v _axis_range_schema with
    | nil => exact absurd hv h
    | cons a l => rfl
  constructor <;> simp [set_axis_range, axis_range, he]

/-- Witness for C3 at the concrete invalid input `{"z": [1, 2]}`. -/
theorem c3_invalid_axis_range_rejected_witness :
    validate vBad _axis_range_schema ≠ [] ∧
    ((set_axis_range cBase vBad).1 =
        .error (.runtimeError (validate vBad _axis_range_schema)) ∧
     axis_range (set_axis_range cBase vBad).2 = axis_range cBase) :=
  ⟨by decide, c3_invalid_axis_range_rejected cBase vBad (by decide)⟩

/-- C6: invoking `create_traces` on the base class raises
`NotImplementedError`, for every `df_raw` and keyword arguments. -/
theorem c6_create_traces_unimplemented (df_raw kwargs : PValue) :
    create_traces df_raw kwargs = .error .notImplementedError := rfl

/-- C4: in the layout returned by `create_layout`, for each axis the axis dict
carries `autorange = true` and no `range` key when the axis is absent from
`axis_range`, and carries `range = axis_range[axis]` and no `autorange` key
when present; and `yaxis.zeroline = true` in every case. (The `_axis_range`
attribute is a dict on every reachable instance: it defaults to `{}` and the
setter only stores validated dicts.) -/
theorem c4_layout_axis_ranges (c : CustomChart) (_hd : (axis_range c).isDict = true) :
    (dictMem c._axis_range "x" = false →
        layoutSub (create_layout c) "xaxis" "autorange" = some (.bool true) ∧
        layoutSub (create_layout c) "xaxis" "range" = Option.none) ∧
    (dictMem c._axis_range "x" = true →
        layoutSub (create_layout c) "xaxis" "range" = some (dictGet c._axis_range "x") ∧
        layoutSub (create_layout c) "xaxis" "autorange" = Option.none) ∧
    (dictMem c._axis_range "y" = false →
        layoutSub (create_layout c) "yaxis" "autorange" = some (.bool true) ∧
        layoutSub (create_layout c) "yaxis" "range" = Option.none) ∧
    (dictMem c._axis_range "y" = true →
        layoutSub (create_layout c) "yaxis" "range" = some (dictGet c._axis_range "y") ∧
        layoutSub (create_layout c) "yaxis" "autorange" = Option.none) ∧
    layoutSub (create_layout c) "yaxis" "zeroline" = some (.bool true) := by
  cases hx : dictMem c._axis_range "x" <;> cases hy : dictMem c._axis_range "y" <;>
    refine ⟨fun h => ?_, fun h => ?_, fun h => ?_, fun h => ?_, ?_⟩ <;>
      simp_all [create_layout, applyAxisRange, baseLayout, setAxisEntry, layoutSub,
        assocFind, assocSet]

/-- Witness for C4 on a chart whose `axis_range` holds `x` but not `y`. -/
theorem c4_layout_axis_ranges_witness :
    (axis_range cX).isDict = true ∧
    dictMem cX._axis_range "x" = true ∧ dictMem cX._axis_range "y" = false ∧
    (layoutSub (create_layout cX) "xaxis" "range" = some (dictGet cX._axis_range "x") ∧
     layoutSub (create_layout cX) "xaxis" "autorange" = Option.none) ∧
    (layoutSub (create_layout cX) "yaxis" "autorange" = some (.bool true) ∧
     layoutSub (create_layout cX) "yaxis" "range" = Option.none) ∧
    layoutSub (create_layout cX) "yaxis" "zeroline" = some (.bool true) :=
  ⟨rfl, rfl, rfl, (c4_layout_axis_ranges cX rfl).2.1 rfl,
   (c4_layout_axis_ranges cX rfl).2.2.1 rfl, (c4_layout_axis_ranges cX rfl).2.2.2.2⟩

/-- C9: the layout returned by `create_layout` has
`legend = {orientation: "h", y: -0.25}`, `hovermode = "closest"`, a title
wrapping the instance's title string, and an `xaxis` dict containing
`automargin = true` and `title = labels["x"]`. -/
theorem c9_standard_layout (c : CustomChart) (_hd : (axis_range c).isDict = true) :
    assocFind (create_layout c) (.str "legend") =
      some (.pv (.dict [(.str "orientation", .str "h"),
                        (.str "y", .float (-(1 : Rat)/4))])) ∧
    assocFind (create_layout c) (.str "hovermode") = some (.pv (.str "closest")) ∧
    assocFind (create_layout c) (.str "title") = some (.pv (.title c.title)) ∧
    layoutSub (create_layout c) "xaxis" "automargin" = some (.bool true) ∧
    layoutSub (create_layout c) "xaxis" "title" = some (.str c.xlabel) := by
  cases hx : dictMem c._axis_range "x" <;> cases hy : dictMem c._axis_range "y" <;>
    refine ⟨?_, ?_, ?_, ?_, ?_⟩ <;>
      simp_all [create_layout, applyAxisRange, baseLayout, setAxisEntry, layoutSub,
        assocFind, assocSet]

/-- C5: when the subclass's `create_traces` override returns traces `ts` and
the layout patching succeeds with patched layout `lay`, `create_figure`
returns the figure dict whose `data` is `ts` and whose `layout` is the
library-native `go.Layout` built from
`apply_custom_layout(create_layout())`. -/
theorem c5_create_figure_composition (tr : TracesHook) (c : CustomChart)
    (df_raw kwargs : PValue) (ts : List PValue) (c1 : CustomChart)
    (htr : tr c df_raw kwargs = (.ok ts, c1))
    (lay : Layout) (ann2 : List PValue)
    (hap : apply_custom_layout c1.layout_overrides (create_layout c1) c1.annotations =
      (.ok lay, ann2)) :
    (create_figure tr c df_raw kwargs).1 = .ok ⟨ts, ⟨lay⟩⟩ := by
  simp [create_figure, htr, hap]

/-- Witness for C5: a three-point trace override on a chart with no
overrides, whose layout patching is the identity. -/
theorem c5_create_figure_composition_witness :
    trThree cBase .pynone (.dict []) = (.ok threePts, cBase) ∧
    apply_custom_layout cBase.layout_overrides (create_layout cBase) cBase.annotations =
      (.ok (create_layout cBase), cBase.annotations) ∧
    (create_figure trThree cBase .pynone (.dict [])).1 =
      .ok ⟨threePts, ⟨create_layout cBase⟩⟩ :=
  ⟨rfl, rfl,
   c5_create_figure_composition trThree cBase .pynone (.dict []) threePts cBase rfl
     (create_layout cBase) cBase.annotations rfl⟩

/-- C7: a sub-key override whose parent key is absent from the layout makes
`apply_custom_layout` raise `KeyError(parent_key)`, and when such an override
heads an instance's `layout_overrides` (and the parent key is absent from the
layout `create_figure` builds), the enclosing `create_figure` call fails with
that same `KeyError`. -/
theorem c7_missing_parent_key (parent_key : String) (sk : PKey) (value : PValue)
    (rest : List LayoutOverride) :
    (∀ (layout : Layout) (ann : List PValue),
       assocFind layout (.str parent_key) = Option.none →
       (apply_custom_layout ((parent_key, some sk, value) :: rest) layout ann).1 =
         .error (.keyError parent_key)) ∧
    (∀ (tr : TracesHook) (c : CustomChart) (df_raw kwargs : PValue)
       (ts : List PValue) (c1 : CustomChart),
       tr c df_raw kwargs = (.ok ts, c1) →
       c1.layout_overrides = (parent_key, some sk, value) :: rest →
       assocFind (create_layout c1) (.str parent_key) = Option.none →
       (create_figure tr c df_raw kwargs).1 = .error (.keyError parent_key)) := by
  constructor
  · intro layout ann hmiss
    simp [apply_custom_layout, hmiss]
  · intro tr c df_raw kwargs ts c1 htr hov hmiss
    have hstep : apply_custom_layout c1.layout_overrides (create_layout c1) c1.annotations =
        (.error (.keyError parent_key), c1.annotations) := by
      rw [hov]
      simp [apply_custom_layout, hmiss]
    simp [create_figure, htr, hstep]

/-- Witness for C7: the override `("zzz", "s", 0)` on the empty layout, and a
chart whose only override names the absent parent key `"zzz"`. -/
theorem c7_missing_parent_key_witness :
    assocFind ([] : Layout) (.str "zzz") = Option.none ∧
    (apply_custom_layout [("zzz", some (.str "s"), .int 0)] [] []).1 =
      .error (.keyError "zzz") ∧
    (create_figure trId cMissing .pynone (.dict [])).1 = .error (.keyError "zzz") :=
  ⟨rfl,
   (c7_missing_parent_key "zzz" (.str "s") (.int 0) []).1 [] [] rfl,
   (c7_missing_parent_key "zzz" (.str "s") (.int 0) []).2 trId cMissing .pynone
     (.dict []) [] cMissing rfl rfl rfl⟩

/-- C8: applying the single override `("legend", "y", -0.1)` to a default
layout from `create_layout` yields a layout whose `legend.y` is `-0.1` while
`legend.orientation` remains `"h"`, every other top-level entry being exactly
that of the default layout, and leaves the annotation list untouched. -/
theorem c8_legend_subkey_patch (c : CustomChart) (_hd : (axis_range c).isDict = true) :
    ∃ R, apply_custom_layout legendOv (create_layout c) c.annotations =
        (.ok R, c.annotations) ∧
      layoutSub R "legend" "y" = some (.float (-(1 : Rat)/10)) ∧
      layoutSub R "legend" "orientation" = some (.str "h") ∧
      ∀ k : PKey, k ≠ .str "legend" → assocFind R k = assocFind (create_layout c) k := by
  refine ⟨assocSet (create_layout c) (.str "legend") (.pv (.dict legendPatched)),
    ?_, ?_, ?_, ?_⟩
  · simp [legendOv, apply_custom_layout, create_layout_find_legend c, lvalSetSub,
      assocSet, legendPatched]
  · simp [layoutSub, assocFind_assocSet_self, legendPatched, assocFind]
  · simp [layoutSub, assocFind_assocSet_self, legendPatched, assocFind]
  · intro k hk
    exact assocFind_assocSet_ne _ _ _ _ hk

/-- Witness for C8: the patch applied on `cBase`, checked at the untouched
`"hovermode"` entry. -/
theorem c8_legend_subkey_patch_witness :
    (axis_range cBase).isDict = true ∧
    (PKey.str "hovermode") ≠ (PKey.str "legend") ∧
    ∃ R, apply_custom_layout legendOv (create_layout cBase) cBase.annotations =
        (.ok R, cBase.annotations) ∧
      layoutSub R "legend" "y" = some (.float (-(1 : Rat)/10)) ∧
      layoutSub R "legend" "orientation" = some (.str "h") ∧
      assocFind R (.str "hovermode") = assocFind (create_layout cBase) (.str "hovermode") := by
  refine ⟨rfl, by decide, ?_⟩
  obtain ⟨R, h1, h2, h3, h4⟩ := c8_legend_subkey_patch cBase rfl
  exact ⟨R, h1, h2, h3, h4 _ (by decide)⟩

/-- C10 counterexample: `trId` does not mutate the instance, yet a
`create_figure` call on a chart holding one annotation and the override
`("annotations", 0, "EVIL")` overwrites the instance's annotation: the
layout's `"annotations"` entry is the instance's own list, so the sub-key
assignment writes through to it. -/
theorem c10_counterexample :
    (trId cEvil .pynone (.dict [])).2 = cEvil ∧
    cEvil.annotations = [.str "orig"] ∧
    (create_figure trId cEvil .pynone (.dict [])).2.annotations = [.str "EVIL"] :=
  ⟨rfl, rfl, rfl⟩

/-- C10 (amended): a `create_figure` call leaves the instance's state —
title, labels, `layout_overrides`, `axis_range` and `annotations` — entirely
unchanged, provided the `create_traces` override does not itself mutate the
instance and no layout override carries a sub-key under the parent key
`"annotations"` (such an override writes through the layout's aliased
`"annotations"` entry into the instance). -/
theorem c10_create_figure_pure (tr : TracesHook) (c : CustomChart)
    (df_raw kwargs : PValue)
    (htr : (tr c df_raw kwargs).2 = c)
    (hno : ∀ ov ∈ c.layout_overrides, ov.1 = "annotations" → ov.2.1 = Option.none) :
    (create_figure tr c df_raw kwargs).2 = c := by
  rcases he : tr c df_raw kwargs with ⟨res, c1⟩
  have hc1 : c1 = c := by rw [he] at htr; exact htr
  subst c1
  cases res with
  | error e => simp [create_figure, he]
  | ok ts =>
      have hann : (apply_custom_layout c.layout_overrides (create_layout c)
          c.annotations).2 = c.annotations :=
        apply_custom_layout_ann_invariant c.layout_overrides (create_layout c)
          c.annotations hno (create_layout_annRef_only c)
      rcases hap : apply_custom_layout c.layout_overrides (create_layout c)
          c.annotations with ⟨r2, ann2⟩
      have hann2 : ann2 = c.annotations := by rw [hap] at hann; exact hann
      cases r2 with
      | error e => simp [create_figure, he, hap, hann2]
      | ok lay => simp [create_figure, he, hap, hann2]

/-- Witness for C10 (amended): the non-mutating hook `trId` and the chart
`cLeg`, whose single override patches the legend. -/
theorem c10_create_figure_pure_witness :
    (trId cLeg .pynone (.dict [])).2 = cLeg ∧
    (∀ ov ∈ cLeg.layout_overrides, ov.1 = "annotations" → ov.2.1 = Option.none) ∧
    (create_figure trId cLeg .pynone (.dict [])).2 = cLeg := by
  have hno : ∀ ov ∈ cLeg.layout_overrides, ov.1 = "annotations" → ov.2.1 = Option.none := by
    intro ov hov he
    rcases List.mem_singleton.mp hov with rfl
    exact absurd he (by decide)
  exact ⟨rfl, hno, c10_create_figure_pure trId cLeg .pynone (.dict []) rfl hno⟩

/-- Witness for C9 at a concrete chart. -/
theorem c9_standard_layout_witness :
    (axis_range cBase).isDict = true ∧
    (assocFind (create_layout cBase) (.str "legend") =
      some (.pv (.dict [(.str "orientation", .str "h"),
                        (.str "y", .float (-(1 : Rat)/4))])) ∧
     assocFind (create_layout cBase) (.str "hovermode") = some (.pv (.str "closest")) ∧
     assocFind (create_layout cBase) (.str "title") = some (.pv (.title cBase.title)) ∧
     layoutSub (create_layout cBase) "xaxis" "automargin" = some (.bool true) ∧
     layoutSub (create_layout cBase) "xaxis" "title" = some (.str cBase.xlabel)) :=
  ⟨rfl, c9_standard_layout cBase rfl⟩

end ParadeChart
